import Mathlib

/-!
Verification of the metrics-estimation, threshold-advice, configuration
and process-supervision logic of the solana-validator-optimizer repository
(rust-port). Rust `f64` rate arithmetic is embedded over `ℚ` (all operations
appearing in the verified formulas are exact), unsigned machine integers over
`ℕ` with explicit `% 2^w` where wrapping matters, and `Result`/`Option` as
`Except`/`Option`.
-/

/-- One entry of `solana_client::rpc_response::RpcPerfSample`, restricted to the
fields read by `blockchain.rs` (`num_slots`, `num_transactions` are `u64`,
`sample_period_secs` is `u16`). -/
structure RpcPerfSample where
  num_slots : ℕ
  num_transactions : ℕ
  sample_period_secs : ℕ
deriving DecidableEq, Repr

/-- Sum of `num_slots` over a sample window (`total_slots` in
`SolanaInterface::calculate_skip_rate`). -/
def total_slots (samples : List RpcPerfSample) : ℕ :=
  (samples.map (fun s => s.num_slots)).sum

/-- Sum of `num_transactions` over a sample window (`total_transactions` in
`SolanaInterface::calculate_skip_rate`). -/
def total_transactions (samples : List RpcPerfSample) : ℕ :=
  (samples.map (fun s => s.num_transactions)).sum

/-- `SolanaInterface::calculate_skip_rate` (blockchain.rs, lines 330-346):
returns `5.0` on an empty sample list; otherwise, when the summed slot count is
positive, computes `expected_tx = total_slots * 100`, the saturating deficit
`expected_tx.saturating_sub(total_transactions)` (Nat subtraction is already
saturating) and `(deficit / expected_tx) * 100`; otherwise returns `5.0`. -/
def calculate_skip_rate (samples : List RpcPerfSample) : ℚ :=
  if samples = [] then 5
  else if 0 < total_slots samples then
    ((total_slots samples * 100 - total_transactions samples : ℕ) : ℚ)
      / ((total_slots samples * 100 : ℕ) : ℚ) * 100
  else 5

/-- All length-2 windows of a list, as pairs: `samples.windows(2)` in
`SolanaInterface::estimate_network_latency`. -/
def windows2 {α : Type} : List α → List (α × α)
  | a :: b :: rest => (a, b) :: windows2 (b :: rest)
  | _ => []

/-- The per-window latency estimates of `SolanaInterface::estimate_network_latency`:
`window[1].sample_period_secs.saturating_sub(window[0].sample_period_secs) * 50`
computed in `u16` (hence `% 2^16`), then cast to `u32`. -/
def latency_windows (samples : List RpcPerfSample) : List ℕ :=
  (windows2 samples).map
    (fun w => (w.2.sample_period_secs - w.1.sample_period_secs) * 50 % 65536)

/-- `SolanaInterface::estimate_network_latency` (blockchain.rs, lines 348-366):
default `50` for fewer than two samples (and for an empty latency list),
otherwise the `u32` average of the window latencies clamped by
`.max(20).min(500)`. -/
def estimate_network_latency (samples : List RpcPerfSample) : ℕ :=
  if samples.length < 2 then 50
  else if latency_windows samples = [] then 50
  else
    min (max ((latency_windows samples).sum % 4294967296 / (latency_windows samples).length) 20) 500

/-- Casting a truncated natural subtraction into `ℤ` yields the `max` with `0`. -/
theorem natCast_sub_eq_max_int (a b : ℕ) :
    ((a - b : ℕ) : ℤ) = max 0 ((a : ℤ) - (b : ℤ)) := by
  rcases le_total b a with h | h
  · rw [Nat.cast_sub h, max_eq_right (sub_nonneg.mpr (by exact_mod_cast h))]
  · rw [Nat.sub_eq_zero_of_le h, max_eq_left (sub_nonpos.mpr (by exact_mod_cast h))]
    simp

/-- Casting a truncated natural subtraction into `ℚ` yields the `max` with `0`. -/
theorem natCast_sub_eq_max_rat (a b : ℕ) :
    ((a - b : ℕ) : ℚ) = max 0 ((a : ℚ) - (b : ℚ)) := by
  rcases le_total b a with h | h
  · rw [Nat.cast_sub h, max_eq_right (sub_nonneg.mpr (by exact_mod_cast h))]
  · rw [Nat.sub_eq_zero_of_le h, max_eq_left (sub_nonpos.mpr (by exact_mod_cast h))]
    simp

/-- The skip-rate estimate always lies in the band `[0, 100]`. -/
theorem calculate_skip_rate_bounds (samples : List RpcPerfSample) :
    0 ≤ calculate_skip_rate samples ∧ calculate_skip_rate samples ≤ 100 := by
  unfold calculate_skip_rate
  split
  · norm_num
  · split
    · next hpos =>
      constructor
      · positivity
      · have he : (0 : ℚ) < ((total_slots samples * 100 : ℕ) : ℚ) := by
          exact_mod_cast Nat.mul_pos hpos (by norm_num)
        have hle : ((total_slots samples * 100 - total_transactions samples : ℕ) : ℚ)
            ≤ ((total_slots samples * 100 : ℕ) : ℚ) := by
          exact_mod_cast Nat.sub_le _ _
        calc ((total_slots samples * 100 - total_transactions samples : ℕ) : ℚ)
              / ((total_slots samples * 100 : ℕ) : ℚ) * 100
            ≤ 1 * 100 := by
              apply mul_le_mul_of_nonneg_right _ (by norm_num)
              exact (div_le_one he).mpr hle
          _ = 100 := by norm_num
    · norm_num

/-- C1 (corrected): for every sequence of performance samples whose total slot
count is 0 (including the empty sequence), `calculate_skip_rate` returns the
hardcoded default `5.0`, not `0` as the specification claims. -/
theorem skip_rate_zero_slots_default (samples : List RpcPerfSample)
    (h : total_slots samples = 0) : calculate_skip_rate samples = 5 := by
  unfold calculate_skip_rate
  split
  · rfl
  · rw [if_neg]
    omega

/-- Witness for C1: the empty sample list has total slot count 0 and skip-rate
estimate 5. -/
theorem skip_rate_zero_slots_default_witness :
    total_slots [] = 0 ∧ calculate_skip_rate [] = 5 :=
  ⟨by decide, skip_rate_zero_slots_default [] (by decide)⟩

/-- Counterexample for C1 as originally stated: the empty sample list has total
slot count 0, yet the skip-rate estimate is not 0 (it is 5). -/
theorem skip_rate_zero_slots_counterexample :
    total_slots [] = 0 ∧ calculate_skip_rate [] ≠ 0 := by
  refine ⟨by decide, ?_⟩
  have h : calculate_skip_rate [] = 5 := by decide
  rw [h]
  norm_num

/-- C5: for samples with positive total slot count, the skip-rate estimate
equals `100 * max 0 (expectedTx - actualTx) / expectedTx` with
`expectedTx = totalSlots * 100`; in particular a window of 1000 slots and
80000 transactions yields a skip rate of exactly 20. -/
theorem skip_rate_formula :
    (∀ samples : List RpcPerfSample, 0 < total_slots samples →
      calculate_skip_rate samples =
        100 * max 0 ((total_slots samples : ℚ) * 100 - (total_transactions samples : ℚ))
          / ((total_slots samples : ℚ) * 100)) ∧
    calculate_skip_rate [⟨1000, 80000, 60⟩] = 20 := by
  constructor
  · intro samples hpos
    have hne : samples ≠ [] := by
      intro h
      rw [h] at hpos
      simp [total_slots] at hpos
    unfold calculate_skip_rate
    rw [if_neg hne, if_pos hpos, natCast_sub_eq_max_rat]
    push_cast
    ring
  · norm_num [calculate_skip_rate, total_slots, total_transactions]

/-- Witness for C5: the formula instantiated at the concrete scenario window. -/
theorem skip_rate_formula_witness :
    calculate_skip_rate [⟨1000, 80000, 60⟩] =
      100 * max 0 ((total_slots [⟨1000, 80000, 60⟩] : ℚ) * 100
          - (total_transactions [⟨1000, 80000, 60⟩] : ℚ))
        / ((total_slots [⟨1000, 80000, 60⟩] : ℚ) * 100) :=
  skip_rate_formula.1 [⟨1000, 80000, 60⟩] (by decide)

/-- C10: the network-latency estimate always lies in the band `[20, 500]`
milliseconds, and with fewer than two samples it is the default `50`. -/
theorem network_latency_band (samples : List RpcPerfSample) :
    20 ≤ estimate_network_latency samples ∧ estimate_network_latency samples ≤ 500 ∧
      (samples.length < 2 → estimate_network_latency samples = 50) := by
  unfold estimate_network_latency
  split
  · exact ⟨by norm_num, by norm_num, fun _ => rfl⟩
  · next h1 =>
    split
    · exact ⟨by norm_num, by norm_num, fun h2 => absurd h2 h1⟩
    · refine ⟨le_min (le_max_right _ _) (by norm_num), min_le_right _ _,
        fun h2 => absurd h2 h1⟩

/-- Witness for C10: the empty sample list gets the in-band default 50. -/
theorem network_latency_band_witness :
    estimate_network_latency [] = 50 ∧ 20 ≤ estimate_network_latency [] ∧
      estimate_network_latency [] ≤ 500 :=
  ⟨(network_latency_band []).2.2 (by decide), (network_latency_band []).1,
    (network_latency_band []).2.1⟩

/-- The slice of `solana_vote_program::vote_state::VoteState` read by
`SolanaInterface::get_validator_metrics`: the vote slots (in order), the
epoch-credits triples `(epoch, credits, prev_credits)` and the root slot. -/
structure VoteStateE where
  votes : List ℕ
  epoch_credits : List (ℕ × ℕ × ℕ)
  root_slot : Option ℕ
deriving DecidableEq, Repr

/-- `VoteState::last_voted_slot`: the slot of the most recent vote, if any. -/
def VoteStateE.last_voted_slot (vs : VoteStateE) : Option ℕ :=
  vs.votes.getLast?

/-- The `ValidatorMetrics` record of blockchain.rs (lines 611-627), with `f64`
fields over `ℚ`. -/
structure ValidatorMetrics where
  epoch : ℕ
  slot : ℕ
  vote_success_rate : ℚ
  skip_rate : ℚ
  credits_earned : ℕ
  vote_lag : ℕ
  network_latency_ms : ℕ
  stake_lamports : ℕ
  total_votes : ℕ
  recent_votes : ℕ
  avg_tps : ℚ
  leader_slots : ℕ
  root_slot : ℕ
  optimized : Bool
deriving DecidableEq, Repr

/-- The pure metrics computation of `SolanaInterface::get_validator_metrics`
(blockchain.rs, lines 48-133), as a function of the values the RPC calls
return: current epoch, current slot, the deserialized vote state, the stake,
the recent performance samples and the length of the leader schedule.
`recent_votes` counts votes with `v.slot() > slot.saturating_sub(150)`;
`vote_success_rate` is `(recent_votes / 150 * 100).min(100)` when there are
votes, else 0; `vote_lag` is `slot.saturating_sub(last_voted_slot.unwrap_or(slot))`. -/
def get_validator_metrics (epoch slot : ℕ) (vote_state : VoteStateE) (stake : ℕ)
    (perf_samples : List RpcPerfSample) (leader_slots : ℕ) : ValidatorMetrics :=
  { epoch := epoch
    slot := slot
    vote_success_rate :=
      if 0 < vote_state.votes.length then
        min (((vote_state.votes.filter (fun v => slot - 150 < v)).length : ℚ) / 150 * 100) 100
      else 0
    skip_rate := calculate_skip_rate perf_samples
    credits_earned := ((vote_state.epoch_credits.getLast?).map (fun t => t.2.1)).getD 0
    vote_lag := slot - (vote_state.last_voted_slot.getD slot)
    network_latency_ms := estimate_network_latency perf_samples
    stake_lamports := stake
    total_votes := vote_state.votes.length
    recent_votes := (vote_state.votes.filter (fun v => slot - 150 < v)).length
    avg_tps :=
      if 0 < total_slots perf_samples then
        ((total_transactions perf_samples : ℚ) / (total_slots perf_samples : ℚ)) * 2
      else 0
    leader_slots := leader_slots
    root_slot := vote_state.root_slot.getD 0
    optimized := true }

/-- C6: every metrics snapshot satisfies the range invariants: the vote success
rate and skip rate lie in `[0, 100]`, and the vote lag is never negative; it is
the saturated difference `max 0 (slot - lastVotedSlot)`. -/
theorem metrics_range_invariants (epoch slot : ℕ) (vote_state : VoteStateE)
    (stake : ℕ) (perf_samples : List RpcPerfSample) (leader_slots : ℕ) :
    0 ≤ (get_validator_metrics epoch slot vote_state stake perf_samples leader_slots).vote_success_rate ∧
    (get_validator_metrics epoch slot vote_state stake perf_samples leader_slots).vote_success_rate ≤ 100 ∧
    0 ≤ (get_validator_metrics epoch slot vote_state stake perf_samples leader_slots).skip_rate ∧
    (get_validator_metrics epoch slot vote_state stake perf_samples leader_slots).skip_rate ≤ 100 ∧
    0 ≤ ((get_validator_metrics epoch slot vote_state stake perf_samples leader_slots).vote_lag : ℤ) ∧
    ((get_validator_metrics epoch slot vote_state stake perf_samples leader_slots).vote_lag : ℤ)
      = max 0 ((slot : ℤ) - ((vote_state.last_voted_slot.getD slot : ℕ) : ℤ)) := by
  refine ⟨?_, ?_, (calculate_skip_rate_bounds perf_samples).1,
    (calculate_skip_rate_bounds perf_samples).2, ?_, ?_⟩
  · simp only [get_validator_metrics]
    split
    · exact le_min (by positivity) (by norm_num)
    · exact le_refl 0
  · simp only [get_validator_metrics]
    split
    · exact min_le_right _ _
    · norm_num
  · exact Int.natCast_nonneg _
  · simp only [get_validator_metrics]
    exact natCast_sub_eq_max_int slot (vote_state.last_voted_slot.getD slot)

/-- The recommendation tokens of blockchain.rs (`OptimizationAction`). -/
inductive OptimizationAction where
  | VoteLatencyReduction
  | ThreadingOptimization
  | NetworkLatencyOptimization
  | QUICProtocolOptimization
  | AggressiveVoteOptimization
  | AggressiveResourceOptimization
deriving DecidableEq, Repr

/-- `SolanaInterface::analyze_performance_gaps` (blockchain.rs, lines 416-448).
The Rust method takes `&self`, whose only state is the `metrics_cache` field;
the `cache` argument embeds that field, and the body never reads it, exactly as
in the source. Rules fire in order: vote success (`< 97`, aggressive `< 85`),
skip rate (`> 3`, aggressive `> 10`), vote lag (`> 30`), latency (`> 50`). -/
def analyze_performance_gaps (cache : ValidatorMetrics) (metrics : ValidatorMetrics) :
    List OptimizationAction :=
  (if metrics.vote_success_rate < 97 then
    [if metrics.vote_success_rate < 85 then OptimizationAction.AggressiveVoteOptimization
     else OptimizationAction.VoteLatencyReduction]
   else [])
  ++ (if 3 < metrics.skip_rate then
    [if 10 < metrics.skip_rate then OptimizationAction.AggressiveResourceOptimization
     else OptimizationAction.ThreadingOptimization]
   else [])
  ++ (if 30 < metrics.vote_lag then [OptimizationAction.NetworkLatencyOptimization] else [])
  ++ (if 50 < metrics.network_latency_ms then [OptimizationAction.QUICProtocolOptimization] else [])

/-- The `PerformanceSnapshot` record of real_optimizer.rs (lines 51-62). -/
structure PerformanceSnapshot where
  timestamp : String
  vote_success_rate : ℚ
  skip_rate : ℚ
  credits_earned : ℕ
  vote_lag : ℕ
  network_latency_ms : ℕ
  tps : ℚ
  cpu_usage : ℚ
  memory_usage_mb : ℕ
deriving DecidableEq, Repr

/-- The `ConfigUpdate` record of real_optimizer.rs (lines 73-80). -/
structure ConfigUpdate where
  parameter : String
  old_value : String
  new_value : String
  expected_impact : String
  requires_restart : Bool
deriving DecidableEq, Repr

/-- The four `OptimizationStrategy` implementations of real_optimizer.rs. -/
inductive Strategy where
  | voteSuccessOptimizer
  | skipRateOptimizer
  | latencyOptimizer
  | resourceOptimizer
deriving DecidableEq, Repr

/-- The `analyze` method of each strategy (real_optimizer.rs, lines 376-469). -/
def strategy_analyze : Strategy → PerformanceSnapshot → Option ConfigUpdate
  | Strategy.voteSuccessOptimizer, s =>
    if s.vote_success_rate < 95 then
      some { parameter := "tpu_coalesce_ms", old_value := "5", new_value := "1",
             expected_impact := "Reduce vote latency by 80%", requires_restart := false }
    else none
  | Strategy.skipRateOptimizer, s =>
    if 5 < s.skip_rate then
      some { parameter := "rpc_threads", old_value := "8", new_value := "32",
             expected_impact := "Improve processing throughput by 40%", requires_restart := true }
    else none
  | Strategy.latencyOptimizer, s =>
    if 50 < s.network_latency_ms then
      some { parameter := "enable_quic", old_value := "false", new_value := "true",
             expected_impact := "Reduce network latency by 60%", requires_restart := true }
    else none
  | Strategy.resourceOptimizer, s =>
    if 80 < s.cpu_usage then
      some { parameter := "snapshot_interval", old_value := "100", new_value := "200",
             expected_impact := "Reduce CPU load by 15%", requires_restart := false }
    else if 7000 < s.memory_usage_mb then
      some { parameter := "cache_size", old_value := "4096", new_value := "2048",
             expected_impact := "Reduce memory usage by 2GB", requires_restart := true }
    else none

/-- The state of `OptimizationEngine`: its `strategies` vector. -/
abbrev OptimizationEngine := List Strategy

/-- `OptimizationEngine::new` (real_optimizer.rs, lines 346-355). -/
def OptimizationEngine.new : OptimizationEngine :=
  [Strategy.voteSuccessOptimizer, Strategy.skipRateOptimizer,
   Strategy.latencyOptimizer, Strategy.resourceOptimizer]

/-- `OptimizationEngine::analyze_and_optimize` (real_optimizer.rs, lines
357-372): collects the updates of every strategy whose `analyze` fires. The
method takes `&self`, so the engine state is returned unchanged. -/
def analyze_and_optimize (e : OptimizationEngine) (s : PerformanceSnapshot) :
    List ConfigUpdate × OptimizationEngine :=
  (e.filterMap (fun st => strategy_analyze st s), e)

/-- C7: the threshold advisor is a pure function of the snapshot: the gap
analysis is independent of the hidden `metrics_cache` state, and calling the
engine twice on the same snapshot yields the identical recommendation sequence
while leaving the engine state untouched. -/
theorem advisor_pure (cache cache2 m : ValidatorMetrics) (s : PerformanceSnapshot) :
    analyze_performance_gaps cache m = analyze_performance_gaps cache2 m ∧
    (analyze_and_optimize OptimizationEngine.new s).1
      = (analyze_and_optimize (analyze_and_optimize OptimizationEngine.new s).2 s).1 ∧
    (analyze_and_optimize (analyze_and_optimize OptimizationEngine.new s).2 s).2
      = (analyze_and_optimize OptimizationEngine.new s).2 :=
  ⟨rfl, rfl, rfl⟩

/-- C8: on the snapshot with vote success 80, skip rate 2, vote lag 10 and
latency 30 ms, the gap analysis emits exactly one recommendation, the
vote-success-related `AggressiveVoteOptimization` (thresholds: vote success
min 97 with aggressive cutoff 85, skip max 3, lag max 30, latency max 50). -/
theorem advise_scenario (cache : ValidatorMetrics) :
    analyze_performance_gaps cache
      { epoch := 0, slot := 0, vote_success_rate := 80, skip_rate := 2,
        credits_earned := 0, vote_lag := 10, network_latency_ms := 30,
        stake_lamports := 0, total_votes := 0, recent_votes := 0, avg_tps := 0,
        leader_slots := 0, root_slot := 0, optimized := true }
      = [OptimizationAction.AggressiveVoteOptimization] := by
  norm_num [analyze_performance_gaps]

/-- The `OptimizationConfig` record of config.rs (lines 19-30); `PathBuf` does
not occur, all fields are unsigned integers. -/
structure OptimizationConfig where
  rpc_threads : ℕ
  accounts_db_threads : ℕ
  tpu_coalesce_ms : ℕ
  incremental_snapshot_interval : ℕ
  full_snapshot_interval : ℕ
  limit_ledger_size : ℕ
  accounts_db_cache_mb : ℕ
  accounts_index_memory_mb : ℕ
  udp_buffer_size : ℕ
deriving DecidableEq, Repr

/-- The `ValidatorConfig` record of config.rs (lines 6-17), with `PathBuf`
fields as path strings. -/
structure ValidatorConfig where
  identity_keypair : String
  vote_account_keypair : String
  ledger_path : String
  accounts_path : String
  snapshots_path : String
  log_path : String
  rpc_port : ℕ
  gossip_port : ℕ
  optimization : OptimizationConfig
deriving DecidableEq, Repr

/-- A JSON tree, the shape `serde_json` serializes these records into (only
strings, unsigned numbers and objects occur). -/
inductive Json where
  | str (s : String)
  | num (n : ℕ)
  | obj (fields : List (String × Json))

/-- Object-field lookup, as `serde` deserialization performs by field name. -/
def Json.getField : Json → String → Option Json
  | Json.obj fields, key => fields.lookup key
  | _, _ => none

/-- Extract a JSON number. -/
def Json.asNat : Json → Option ℕ
  | Json.num n => some n
  | _ => none

/-- Extract a JSON string. -/
def Json.asStr : Json → Option String
  | Json.str s => some s
  | _ => none

/-- The derived `Serialize` for `OptimizationConfig`: one JSON object with the
fields in declaration order. -/
def OptimizationConfig.toJson (c : OptimizationConfig) : Json :=
  Json.obj
    [("rpc_threads", Json.num c.rpc_threads),
     ("accounts_db_threads", Json.num c.accounts_db_threads),
     ("tpu_coalesce_ms", Json.num c.tpu_coalesce_ms),
     ("incremental_snapshot_interval", Json.num c.incremental_snapshot_interval),
     ("full_snapshot_interval", Json.num c.full_snapshot_interval),
     ("limit_ledger_size", Json.num c.limit_ledger_size),
     ("accounts_db_cache_mb", Json.num c.accounts_db_cache_mb),
     ("accounts_index_memory_mb", Json.num c.accounts_index_memory_mb),
     ("udp_buffer_size", Json.num c.udp_buffer_size)]

/-- The derived `Deserialize` for `OptimizationConfig`. -/
def OptimizationConfig.fromJson (j : Json) : Option OptimizationConfig := do
  let rpc_threads ← (j.getField "rpc_threads").bind Json.asNat
  let accounts_db_threads ← (j.getField "accounts_db_threads").bind Json.asNat
  let tpu_coalesce_ms ← (j.getField "tpu_coalesce_ms").bind Json.asNat
  let incremental_snapshot_interval ← (j.getField "incremental_snapshot_interval").bind Json.asNat
  let full_snapshot_interval ← (j.getField "full_snapshot_interval").bind Json.asNat
  let limit_ledger_size ← (j.getField "limit_ledger_size").bind Json.asNat
  let accounts_db_cache_mb ← (j.getField "accounts_db_cache_mb").bind Json.asNat
  let accounts_index_memory_mb ← (j.getField "accounts_index_memory_mb").bind Json.asNat
  let udp_buffer_size ← (j.getField "udp_buffer_size").bind Json.asNat
  pure { rpc_threads := rpc_threads, accounts_db_threads := accounts_db_threads,
         tpu_coalesce_ms := tpu_coalesce_ms,
         incremental_snapshot_interval := incremental_snapshot_interval,
         full_snapshot_interval := full_snapshot_interval,
         limit_ledger_size := limit_ledger_size,
         accounts_db_cache_mb := accounts_db_cache_mb,
         accounts_index_memory_mb := accounts_index_memory_mb,
         udp_buffer_size := udp_buffer_size }

/-- The derived `Serialize` for `ValidatorConfig`. -/
def ValidatorConfig.toJson (c : ValidatorConfig) : Json :=
  Json.obj
    [("identity_keypair", Json.str c.identity_keypair),
     ("vote_account_keypair", Json.str c.vote_account_keypair),
     ("ledger_path", Json.str c.ledger_path),
     ("accounts_path", Json.str c.accounts_path),
     ("snapshots_path", Json.str c.snapshots_path),
     ("log_path", Json.str c.log_path),
     ("rpc_port", Json.num c.rpc_port),
     ("gossip_port", Json.num c.gossip_port),
     ("optimization", c.optimization.toJson)]

/-- The derived `Deserialize` for `ValidatorConfig`. -/
def ValidatorConfig.fromJson (j : Json) : Option ValidatorConfig := do
  let identity_keypair ← (j.getField "identity_keypair").bind Json.asStr
  let vote_account_keypair ← (j.getField "vote_account_keypair").bind Json.asStr
  let ledger_path ← (j.getField "ledger_path").bind Json.asStr
  let accounts_path ← (j.getField "accounts_path").bind Json.asStr
  let snapshots_path ← (j.getField "snapshots_path").bind Json.asStr
  let log_path ← (j.getField "log_path").bind Json.asStr
  let rpc_port ← (j.getField "rpc_port").bind Json.asNat
  let gossip_port ← (j.getField "gossip_port").bind Json.asNat
  let optimization ← (j.getField "optimization").bind OptimizationConfig.fromJson
  pure { identity_keypair := identity_keypair, vote_account_keypair := vote_account_keypair,
         ledger_path := ledger_path, accounts_path := accounts_path,
         snapshots_path := snapshots_path, log_path := log_path,
         rpc_port := rpc_port, gossip_port := gossip_port,
         optimization := optimization }

/-- `OptimizationConfig::default` (config.rs, lines 51-65). -/
def OptimizationConfig.default_config : OptimizationConfig :=
  { rpc_threads := 32, accounts_db_threads := 16, tpu_coalesce_ms := 1,
    incremental_snapshot_interval := 100, full_snapshot_interval := 25000,
    limit_ledger_size := 50000000, accounts_db_cache_mb := 4096,
    accounts_index_memory_mb := 2048, udp_buffer_size := 134217728 }

/-- `ValidatorConfig::default` (config.rs, lines 32-49), with the `HOME`
environment variable as a parameter (source default "/tmp"). -/
def ValidatorConfig.default_config (home : String) : ValidatorConfig :=
  { identity_keypair := home ++ "/solana-validator/validator-keypair.json",
    vote_account_keypair := home ++ "/solana-validator/vote-account-keypair.json",
    ledger_path := home ++ "/solana-validator/ledger",
    accounts_path := home ++ "/solana-validator/accounts",
    snapshots_path := home ++ "/solana-validator/snapshots",
    log_path := home ++ "/solana-validator/logs/validator.log",
    rpc_port := 8899, gossip_port := 8001,
    optimization := OptimizationConfig.default_config }

/-- `ValidatorConfig::config_path` (config.rs, lines 88-91). -/
def config_path (home : String) : String :=
  home ++ "/.solana-optimizer/config.json"

/-- The parent directory of the config file (`config_path.parent()`). -/
def config_dir (home : String) : String :=
  home ++ "/.solana-optimizer"

/-- The state of the persisted config file: absent, or present with parsed
content (a crash model for partially written files appears below). -/
abbrev Fs := Option Json

/-- `ValidatorConfig::save` (config.rs, lines 80-86): unconditionally overwrite
the config file with the serialized configuration (`fs::write`, no temp file,
no rename). -/
def ValidatorConfig.save (c : ValidatorConfig) (fs : Fs) : Fs :=
  some c.toJson

/-- `ValidatorConfig::load` (config.rs, lines 68-78): if the file exists, parse
it (a parse failure is the `Err` case, `none` here); otherwise create the
default configuration, save it and return it. -/
def ValidatorConfig.load (home : String) (fs : Fs) : Option ValidatorConfig × Fs :=
  match fs with
  | some contents => (ValidatorConfig.fromJson contents, some contents)
  | none =>
    (some (ValidatorConfig.default_config home),
      (ValidatorConfig.default_config home).save none)

/-- C2: saving any configuration and loading it back returns exactly the saved
configuration (save/load round-trip law). -/
theorem save_load_roundtrip (home : String) (c : ValidatorConfig) (fs : Fs) :
    (ValidatorConfig.load home (c.save fs)).1 = some c :=
  rfl

/-- The file-system operations `ValidatorConfig::save` can issue. -/
inductive FsOp where
  | create_dir_all (path : String)
  | write_file (path : String) (content : Json)
  | rename (src dst : String)

/-- The contents a single file can hold on disk: fully written, or truncated by
a crash in the middle of a non-atomic write. -/
inductive FileContent where
  | truncated
  | complete (j : Json)

/-- Disk contents: an association list from path to file content (the first
entry for a path shadows later ones). -/
abbrev Disk := List (String × FileContent)

/-- Look up the content of a file. -/
def disk_get (d : Disk) (p : String) : Option FileContent :=
  d.lookup p

/-- Overwrite (or create) a file. -/
def disk_put (d : Disk) (p : String) (c : FileContent) : Disk :=
  (p, c) :: d

/-- The effect of one completed file-system operation. A completed `write_file`
leaves the full content; `rename` moves the source content onto the
destination; `create_dir_all` does not touch file contents. -/
def apply_fs_op (d : Disk) : FsOp → Disk
  | FsOp.create_dir_all _ => d
  | FsOp.write_file p j => disk_put d p (FileContent.complete j)
  | FsOp.rename src dst =>
    match disk_get d src with
    | some c => disk_put d dst c
    | none => d

/-- The disks observable if the process crashes in the middle of one operation:
a plain `write_file` is not atomic, so a crash during it leaves a truncated
file; directory creation and `rename` are atomic and have no intermediate
disk. -/
def crash_mid_op (d : Disk) : FsOp → List Disk
  | FsOp.write_file p _ => [disk_put d p FileContent.truncated]
  | _ => []

/-- All disks observable if the process crashes at any point while executing a
sequence of file-system operations (before, during or after each step). -/
def crash_disks (d : Disk) : List FsOp → List Disk
  | [] => [d]
  | op :: rest => d :: crash_mid_op d op ++ crash_disks (apply_fs_op d op) rest

/-- The file-system operations of `ValidatorConfig::save` (config.rs, lines
80-86): `fs::create_dir_all` on the parent directory, then a single direct
`fs::write` of the serialized configuration onto the final config path. -/
def ValidatorConfig.save_ops (home : String) (c : ValidatorConfig) : List FsOp :=
  [FsOp.create_dir_all (config_dir home),
   FsOp.write_file (config_path home) c.toJson]

/-- C3 (refuted, code bug): `ValidatorConfig::save` issues no rename at all —
it writes the config file in place — and consequently a crash in the middle of
the save can leave the persisted configuration file truncated, contrary to the
claimed write-temp-then-rename atomicity. -/
theorem save_not_atomic (home : String) (c : ValidatorConfig) (d : Disk) :
    (∀ src dst, FsOp.rename src dst ∉ ValidatorConfig.save_ops home c) ∧
    FsOp.write_file (config_path home) c.toJson ∈ ValidatorConfig.save_ops home c ∧
    ∃ d2 ∈ crash_disks d (ValidatorConfig.save_ops home c),
      disk_get d2 (config_path home) = some FileContent.truncated := by
  refine ⟨?_, ?_, ?_⟩
  · intro src dst
    simp only [ValidatorConfig.save_ops, List.mem_cons, List.not_mem_nil, or_false]
    rintro (h | h) <;> exact FsOp.noConfusion h
  · simp [ValidatorConfig.save_ops]
  · refine ⟨disk_put d (config_path home) FileContent.truncated, ?_, ?_⟩
    · simp [ValidatorConfig.save_ops, crash_disks, crash_mid_op, apply_fs_op]
    · simp [disk_get, disk_put, List.lookup]

/-- The `PerformanceMetrics` record of monitor.rs (lines 17-27); the timestamp
string (`Local::now()`) is a parameter of the constructors below. -/
structure PerformanceMetrics where
  vote_success_rate : ℚ
  skip_rate : ℚ
  credits_earned : ℕ
  vote_lag : ℕ
  network_latency_ms : ℕ
  timestamp : String
  epoch : ℕ
  slot : ℕ
deriving DecidableEq, Repr

/-- `PerformanceMetrics::from_validator_metrics` (monitor.rs, lines 31-42). -/
def PerformanceMetrics.from_validator_metrics (now : String) (m : ValidatorMetrics) :
    PerformanceMetrics :=
  { vote_success_rate := m.vote_success_rate, skip_rate := m.skip_rate,
    credits_earned := m.credits_earned, vote_lag := m.vote_lag,
    network_latency_ms := m.network_latency_ms, timestamp := now,
    epoch := m.epoch, slot := m.slot }

/-- `PerformanceMetrics::baseline` (monitor.rs, lines 45-56): the all-zero
record returned when no validator is connected. -/
def PerformanceMetrics.baseline (now : String) : PerformanceMetrics :=
  { vote_success_rate := 0, skip_rate := 0, credits_earned := 0, vote_lag := 0,
    network_latency_ms := 0, timestamp := now, epoch := 0, slot := 0 }

/-- The outcomes of the two RPC endpoints a metrics fetch can contact (keypairs
assumed readable; a keypair-read failure errors out before any endpoint is
tried). `some m` means the endpoint answered with metrics `m`; `none` means
connection failure or timeout. -/
structure RpcEnv where
  local_metrics : Option ValidatorMetrics
  testnet_metrics : Option ValidatorMetrics

/-- `try_get_real_metrics` (monitor.rs, lines 348-370): local endpoint first,
then the testnet endpoint, whose failure is the error case (`SolanaInterface::new`
itself never fails). -/
def try_get_real_metrics (env : RpcEnv) : Except String ValidatorMetrics :=
  match env.local_metrics with
  | some m => Except.ok m
  | none =>
    match env.testnet_metrics with
    | some m => Except.ok m
    | none => Except.error "Failed to get metrics from testnet"

/-- `get_current_metrics` (monitor.rs, lines 327-345): on any failure of
`try_get_real_metrics` it swallows the error and returns `Ok` of the baseline
record. -/
def get_current_metrics (now : String) (env : RpcEnv) : Except String PerformanceMetrics :=
  match try_get_real_metrics env with
  | Except.ok m => Except.ok (PerformanceMetrics.from_validator_metrics now m)
  | Except.error _ => Except.ok (PerformanceMetrics.baseline now)

/-- `get_current_vote_success` (optimizer.rs, lines 275-302): local endpoint,
then testnet, and when both fail it returns `Ok(85.0)`, the hardcoded
"baseline unoptimized" vote-success rate. -/
def get_current_vote_success (env : RpcEnv) : Except String ℚ :=
  match env.local_metrics with
  | some m => Except.ok m.vote_success_rate
  | none =>
    match env.testnet_metrics with
    | some m => Except.ok m.vote_success_rate
    | none => Except.ok 85

/-- C4 (refuted, code bug): when neither endpoint answers, no unavailability
error is surfaced: `get_current_vote_success` substitutes the fabricated
plausible-looking nonzero baseline `85.0` behind an `Ok`, and
`get_current_metrics` likewise converts the failure into an `Ok` baseline
record instead of an error. -/
theorem fabricated_metrics_on_failure :
    get_current_vote_success ⟨none, none⟩ = Except.ok 85 ∧
    get_current_metrics "" ⟨none, none⟩ = Except.ok (PerformanceMetrics.baseline "") :=
  ⟨rfl, rfl⟩

/-- The POSIX signals this tool sends to the validator process. -/
inductive Sig where
  | sigterm
  | sigkill
  | sigusr1
deriving DecidableEq, Repr

/-- The signal trace of `validator.rs::stop` (lines 93-119) for one matching
process: a single `kill -TERM pid`, then the function prints success and
returns — no wait, no timeout, no escalation. -/
def validator_stop_trace : List Sig :=
  [Sig.sigterm]

/-- The signal trace of `ProcessManager::stop_validator_internal`
(process_manager.rs, lines 424-444): `child.kill()` — which delivers SIGKILL
on Unix, despite the adjacent "Send SIGTERM for graceful shutdown" comment —
followed by a wait bounded by 10 seconds; whether or not that wait times out,
nothing further is sent (a timeout only logs a warning). -/
def stop_validator_internal_trace (timed_out : Bool) : List Sig :=
  [Sig.sigkill]

/-- The bound of the `tokio::time::timeout` wait in `stop_validator_internal`. -/
def stop_wait_timeout_secs : ℕ := 10

/-- Whether a process survives a list of delivered signals: SIGKILL always
terminates it, SIGTERM terminates it only if it does not ignore graceful
termination, SIGUSR1 never terminates it. -/
def survives (ignores_term : Bool) (sent : List Sig) : Bool :=
  sent.all (fun s =>
    match s with
    | Sig.sigkill => false
    | Sig.sigterm => ignores_term
    | Sig.sigusr1 => true)

/-- C9 (refuted, code bug): a process that ignores graceful termination
survives `validator.rs::stop` — the forced kill is skipped, since that stop
sends exactly one SIGTERM — while `stop_validator_internal` sends SIGKILL
first (never a graceful signal) and sends nothing further even when its 10 s
wait times out. -/
theorem stop_escalation_missing :
    survives true validator_stop_trace = true ∧
    validator_stop_trace = [Sig.sigterm] ∧
    (∀ timed_out, stop_validator_internal_trace timed_out = [Sig.sigkill]) :=
  ⟨rfl, rfl, fun _ => rfl⟩
